import Mathlib

/-!
Verification of the Market-Intelligence-Platform utility scripts.

The repository consists of three Python scripts:
  * `convert-report-to-doc.py` — a markdown-to-docx converter built on
    string splitting (`main`, lines 14–96);
  * `scripts/yahoo_finance.py` — a CLI adapter around a market-data
    provider, printing one JSON object per invocation;
  * `scripts/google_trends.py` — a CLI adapter around a search-trends
    provider, printing one JSON object per invocation.

Strings are embedded as `List Char`; the Python string primitives used by
the scripts (`strip`, `split`, `replace`, `startswith`, slicing, `join`,
`int(...)`) are embedded below with Python semantics.  External provider
calls are oracles: each `try:` body that contacts the network is a
parameter of type `Except (List Char) _`, where `Except.error e` stands
for an exception with message `e` raised inside that body.
-/

/-- Strings are modelled as lists of characters. -/
abbrev Str := List Char

/-- Character data of a Lean string literal. -/
def str (s : String) : Str := s.data

/-- Python whitespace predicate used by `str.strip()` (ASCII range). -/
def isPySpace (c : Char) : Bool :=
  c = ' ' || c = '\t' || c = '\n' || c = '\r' || c = '\x0b' || c = '\x0c'

/-- Python `s.strip()`: remove leading and trailing whitespace. -/
def pstrip (s : Str) : Str :=
  ((s.dropWhile isPySpace).reverse.dropWhile isPySpace).reverse

/-- Fuel-driven worker for Python `str.split(sep)` with a non-empty
separator: scan left to right, break at each non-overlapping occurrence
of `sep`.  The fuel is only there to make the recursion structural; it is
canonical whenever `fuel ≥ s.length`. -/
def splitF (sep : Str) : Nat → Str → List Str
  | _, [] => [[]]
  | 0, s => [s]
  | fuel + 1, c :: rest =>
    if sep.isPrefixOf (c :: rest) then
      [] :: splitF sep fuel (rest.drop (sep.length - 1))
    else
      let r := splitF sep fuel rest
      (c :: r.headD []) :: r.tail

/-- Python `s.split(sep)` for a non-empty separator `sep`. -/
def splitSeq (sep s : Str) : List Str := splitF sep s.length s

/-- Fuel-driven worker for Python `str.replace(old, new)` with non-empty
`old`: replace every non-overlapping occurrence, scanning left to right. -/
def replF (old new : Str) : Nat → Str → Str
  | _, [] => []
  | 0, s => s
  | fuel + 1, c :: rest =>
    if old.isPrefixOf (c :: rest) then
      new ++ replF old new fuel (rest.drop (old.length - 1))
    else
      c :: replF old new fuel rest

/-- Python `s.replace(old, new)` for a non-empty `old`. -/
def pyReplace (old new s : Str) : Str := replF old new s.length s

/-- Python `"\n".join(lines)`. -/
def joinNL (lines : List Str) : Str := List.intercalate (str "\n") lines

/-- The level-2 section delimiter `"\n## "` (converter line 39). -/
def sep2 : Str := str "\n## "

/-- The level-3 subsection delimiter `"\n### "` (converter line 56). -/
def sep3 : Str := str "\n### "

/-- The blank-line paragraph delimiter `"\n\n"` (converter lines 60, 77). -/
def dblNL : Str := str "\n\n"

/-- Output nodes of the produced document: `doc.add_heading(text, level)`,
`doc.add_paragraph(text)`, and `doc.add_paragraph(text, style='List Bullet')`. -/
inductive Node where
  | heading (level : Nat) (text : Str)
  | para (text : Str)
  | bullet (text : Str)
deriving DecidableEq, Repr

/-- Converter lines 61–63: a direct block of a section is emitted as a
plain paragraph when non-blank, with no bullet classification. -/
def directPara (para : Str) : List Node :=
  if (pstrip para).isEmpty then [] else [Node.para (pstrip para)]

/-- Converter lines 83–86: one fragment of `para.strip().split('\n- ')`;
skipped when blank, else a leading `"- "` (checked on the unstripped
fragment) is removed before stripping and emitting the bullet item. -/
def bulletOfItem (item : Str) : List Node :=
  if (pstrip item).isEmpty then []
  else [Node.bullet (pstrip (if (str "- ").isPrefixOf item then item.drop 2 else item))]

/-- Converter lines 79–88: a block of a subsection.  Blank blocks are
dropped; blocks whose stripped text starts with `"- "` become bullet
items; everything else becomes a plain paragraph. -/
def subPara (para : Str) : List Node :=
  if (pstrip para).isEmpty then []
  else if (str "- ").isPrefixOf (pstrip para) then
    (splitSeq (str "\n- ") (pstrip para)).flatMap bulletOfItem
  else [Node.para (pstrip para)]

/-- Converter lines 48–49 and 68–69: first line of the stripped fragment
is its title. -/
def fragTitle (frag : Str) : Str :=
  (splitSeq (str "\n") (pstrip frag)).headD []

/-- Converter lines 50 and 70: the remaining lines, re-joined and
stripped, are the fragment body. -/
def fragContent (frag : Str) : Str :=
  pstrip (joinNL ((splitSeq (str "\n") (pstrip frag)).tail))

/-- Converter lines 66–88: one subsection fragment becomes a level-2
heading followed by its blocks. -/
def subsectionNodes (frag : Str) : List Node :=
  Node.heading 2 (fragTitle frag) ::
    (if (fragContent frag).isEmpty then []
     else (splitSeq dblNL (fragContent frag)).flatMap subPara)

/-- Converter lines 46–88: one section fragment becomes a level-1 heading,
then — only when the body's first `'\n### '`-fragment does not start with
`"###"` — its direct paragraph blocks, then its subsections. -/
def sectionNodes (frag : Str) : List Node :=
  Node.heading 1 (fragTitle frag) ::
    ((if (str "###").isPrefixOf ((splitSeq sep3 (fragContent frag)).headD []) then []
      else (splitSeq dblNL (pstrip ((splitSeq sep3 (fragContent frag)).headD []))).flatMap
        directPara)
     ++ ((splitSeq sep3 (fragContent frag)).tail).flatMap subsectionNodes)

/-- Converter lines 39–88: the whole document.  The fragment before the
first `"\n## "` is stripped and `"# "` is replaced away (`replace`, not a
single leading strip) to form the title. -/
def convert (t : Str) : List Node :=
  Node.heading 0 (pyReplace (str "# ") [] (pstrip ((splitSeq sep2 t).headD []))) ::
    ((splitSeq sep2 t).tail).flatMap sectionNodes

/-- Outcome of a converter run that terminated through the script's own
reporting path: the process exit code, the document written by `doc.save`
(written only when the whole `try:` block succeeds, since the save is its
last statement), and the printed messages. -/
structure ConvOut where
  exitCode : Nat
  written : Option (List Node)
  stdout : List Str
deriving DecidableEq, Repr

/-- Converter `main` (lines 14–96), reached only when the module-level
imports succeeded.  The `import docx` check of lines 15–20 then always
passes (the module already imported at line 10), so it is dead code and
contributes no branch here.  `input` is `some content` when `REPORT.md`
exists with that content and `none` otherwise (line 23); `exn` is
`some e` when an exception with message `e` is raised inside the `try:`
block of lines 27–92 before the save completes, and `none` on a clean
run. -/
def convMain (input : Option Str) (exn : Option Str) : ConvOut :=
  match input with
  | none => ⟨1, none, [str "Error: REPORT.md file not found in the current directory."]⟩
  | some content =>
    match exn with
    | some e => ⟨1, none, [str "Error converting the report: " ++ e]⟩
    | none => ⟨0, some (convert content), [str "Successfully converted REPORT.md to REPORT.docx"]⟩

/-- Outcome of the whole converter process: `run out` is a run that
terminated through the script's own reporting path; `exn` is an unhandled
exception escaping the script. -/
inductive ConvResult where
  | run (out : ConvOut)
  | exn
deriving DecidableEq, Repr

/-- The whole `convert-report-to-doc.py` process: the module-level loads
of the docx, markdown and html2text libraries (lines 10–12) run before
`main`; when any of these libraries is missing (`libsInstalled = false`)
the `ImportError` escapes unhandled before `main` ever runs — the
friendly check of lines 15–20 is never reached. -/
def convScript (libsInstalled : Bool) (input : Option Str) (exn : Option Str) : ConvResult :=
  if !libsInstalled then .exn
  else .run (convMain input exn)

/-- The document written by a converter run; an unhandled exception
while loading the libraries writes nothing. -/
def convWritten : ConvResult → Option (List Node)
  | .run o => o.written
  | .exn => none

/-- The process exit status of a converter run; CPython exits with
status 1 on an unhandled exception. -/
def convExit : ConvResult → Nat
  | .run o => o.exitCode
  | .exn => 1

/-- Whether the converter run died on an unhandled exception instead of
terminating through its own reporting path. -/
def isConvFault : ConvResult → Bool
  | .run _ => false
  | .exn => true

/-- JSON values, the shape of what the adapter scripts `print(json.dumps(...))`. -/
inductive J where
  | jstr (s : Str)
  | jnum (n : Int)
  | jarr (elems : List J)
  | jobj (fields : List (Str × J))

/-- The `{'status': 'error', 'message': m}` payload the adapters emit for
caught exceptions and for argument errors. -/
def errJ (m : Str) : J :=
  J.jobj [(str "status", J.jstr (str "error")), (str "message", J.jstr m)]

/-- Outcome of running an adapter script: `ok out` is a normal run that
printed the JSON objects `out` and exited with code 0; `exn` is an
unhandled exception escaping the script. -/
inductive PyResult where
  | ok (out : List J)
  | exn

/-- Exit code of an adapter run; `none` when the process dies on an
unhandled exception. -/
def pyExit : PyResult → Option Nat
  | .ok _ => some 0
  | .exn => none

/-- Whether a run ended in an unhandled fault. -/
def isFault : PyResult → Bool
  | .ok _ => false
  | .exn => true

/-- Digit-string value, `none` unless the string is one or more ASCII digits. -/
def digitsVal (l : Str) : Option Nat :=
  if l ≠ [] ∧ l.all Char.isDigit then
    some (l.foldl (fun a c => a * 10 + (c.toNat - 48)) 0)
  else none

/-- Python `int(s)`: surrounding whitespace, an optional sign, digits;
`none` models the `ValueError` raised on anything else. -/
def pyInt (s : Str) : Option Int :=
  match pstrip s with
  | '+' :: r => (digitsVal r).map Int.ofNat
  | '-' :: r => (digitsVal r).map (fun n => -(n : Int))
  | r => (digitsVal r).map Int.ofNat

/-- `yahoo_finance.get_stock_data` (lines 9–44): the `try:` body (the
provider calls and the reshaping of lines 11–34) is the oracle `body`,
yielding the `info` and `history` fields on success. -/
def get_stock_data (body : Except Str (J × J)) : J :=
  match body with
  | .ok (info, history) =>
    J.jobj [(str "status", J.jstr (str "success")), (str "info", info), (str "history", history)]
  | .error e => errJ e

/-- `yahoo_finance.get_market_summary` (lines 46–81): the loop over the
indices is the oracle `body`, yielding the `results` dict on success. -/
def get_market_summary (body : Except Str J) : J :=
  match body with
  | .ok results => J.jobj [(str "status", J.jstr (str "success")), (str "data", results)]
  | .error e => errJ e

/-- `yahoo_finance.get_industry_performance` (lines 83–135): the sector
loop is the oracle `body`, yielding the current date and the results list. -/
def get_industry_performance (body : Except Str (Str × J)) : J :=
  match body with
  | .ok (date, results) =>
    J.jobj [(str "status", J.jstr (str "success")), (str "date", J.jstr date), (str "data", results)]
  | .error e => errJ e

/-- `yahoo_finance.search_stocks` (lines 137–170): the ticker loop is the
oracle `body`, yielding the results list on success. -/
def search_stocks (body : Except Str J) : J :=
  match body with
  | .ok results => J.jobj [(str "status", J.jstr (str "success")), (str "data", results)]
  | .error e => errJ e

/-- Oracles for the provider-facing `try:` bodies of `yahoo_finance.py`. -/
structure YOracle where
  stock : Str → Str → Except Str (J × J)
  market : Except Str J
  sectors : Except Str (Str × J)
  search : Str → Int → Except Str J

/-- A trivial oracle: every provider call raises with an empty message. -/
def oDefault : YOracle :=
  { stock := fun _ _ => .error []
    market := .error []
    sectors := .error []
    search := fun _ _ => .error [] }

/-- `yahoo_finance.main` (lines 172–200).  `argv` is the full `sys.argv`
(element 0 is the script path).  The only operation of `main` that can
raise is `int(sys.argv[3])` on line 195, modelled by `pyInt` returning
`none` and the run ending in `PyResult.exn`. -/
def yahooMain (o : YOracle) (argv : List Str) : PyResult :=
  if argv.length < 2 then .ok [errJ (str "No command specified")]
  else if argv.getD 1 [] = str "stock" then
    if argv.length < 3 then .ok [errJ (str "No symbol specified")]
    else
      .ok [get_stock_data
        (o.stock (argv.getD 2 []) (if 3 < argv.length then argv.getD 3 [] else str "1mo"))]
  else if argv.getD 1 [] = str "market" then .ok [get_market_summary o.market]
  else if argv.getD 1 [] = str "sectors" then .ok [get_industry_performance o.sectors]
  else if argv.getD 1 [] = str "search" then
    if argv.length < 3 then .ok [errJ (str "No query specified")]
    else
      match (if 3 < argv.length then pyInt (argv.getD 3 []) else some 10) with
      | none => .exn
      | some limit => .ok [search_stocks (o.search (argv.getD 2 []) limit)]
  else .ok [errJ (str "Unknown command: " ++ argv.getD 1 [])]


/-- One row of a pytrends interest-over-time dataframe (the `isPartial`
column already removed): a date and the interest value per keyword column. -/
structure TrendRow where
  date : Str
  vals : Str → Int

/-- One record of `get_industry_interest`'s melted output: date, keyword
and interest (google_trends lines 178–184). -/
structure IRec where
  date : Str
  keyword : Str
  interest : Int
deriving DecidableEq, Repr

/-- `pd.melt(df, id_vars=['date'], value_vars=chunk, ...)` followed by
`to_dict('records')` (lines 178–187): keyword-major order — for each
keyword of the chunk in order, one record per row of the dataframe. -/
def meltRecords (chunk : List Str) (rows : List TrendRow) : List IRec :=
  chunk.flatMap fun k => rows.map fun r => ⟨r.date, k, r.vals k⟩

/-- Result dict of `get_industry_interest` (lines 189–205). -/
inductive GIResult where
  | success (region period : Str) (data : List IRec)
  | failure (message : Str)
deriving DecidableEq, Repr

/-- `[industry_keywords[i:i+5] for i in range(0, len(industry_keywords), 5)]`
(line 159): consecutive chunks of at most five keywords. -/
def chunks5 : List α → List (List α)
  | [] => []
  | [a] => [[a]]
  | [a, b] => [[a, b]]
  | [a, b, c] => [[a, b, c]]
  | [a, b, c, d] => [[a, b, c, d]]
  | a :: b :: c :: d :: e :: rest => [a, b, c, d, e] :: chunks5 rest

/-- The chunk loop of lines 161–187: `fetch c` is the oracle for the
`build_payload` + `interest_over_time` calls on chunk `c` (with the
`isPartial` column dropped); an exception in any iteration aborts the
loop and propagates to the `except` of line 201; an empty dataframe
contributes nothing. -/
def giiGo (fetch : List Str → Except Str (List TrendRow)) :
    List (List Str) → Except Str (List IRec)
  | [] => .ok []
  | c :: cs =>
    match fetch c with
    | .error e => .error e
    | .ok df =>
      match giiGo fetch cs with
      | .error e => .error e
      | .ok rest => .ok ((if df.isEmpty then [] else meltRecords c df) ++ rest)

/-- `google_trends.get_industry_interest` (lines 155–205). -/
def get_industry_interest (fetch : List Str → Except Str (List TrendRow))
    (kws : List Str) (period region : Str) : GIResult :=
  match giiGo fetch (chunks5 kws) with
  | .error e => .failure e
  | .ok data =>
    if data.isEmpty then .failure (str "No data returned for the query")
    else .success region period data

/-- Serialization of one melted record as printed by `json.dumps`. -/
def irecToJ (r : IRec) : J :=
  J.jobj [(str "date", J.jstr r.date), (str "keyword", J.jstr r.keyword),
          (str "interest", J.jnum r.interest)]

/-- Serialization of a `get_industry_interest` result (lines 190–200). -/
def giToJ : GIResult → J
  | .success region period data =>
    J.jobj [(str "status", J.jstr (str "success")), (str "region", J.jstr region),
            (str "period", J.jstr period), (str "data", J.jarr (data.map irecToJ))]
  | .failure m => errJ m

/-- The catch-all wrapper shared by the simple google_trends functions:
the oracle `body` is the whole `try:` block, yielding the result dict it
returns; `Except.error e` is an exception caught by the `except` clause. -/
def catchJ (body : Except Str J) : J :=
  match body with
  | .ok j => j
  | .error e => errJ e

/-- Oracles for the provider-facing `try:` bodies of `google_trends.py`. -/
structure GClient where
  interestBody : List Str → Str → Except Str J
  relatedQueriesBody : Str → Str → Except Str J
  relatedTopicsBody : Str → Str → Except Str J
  trendingBody : Str → Except Str J
  industryFetch : List Str → Except Str (List TrendRow)

/-- A trivial trends client: every provider call raises with an empty message. -/
def gDefault : GClient :=
  { interestBody := fun _ _ => .error []
    relatedQueriesBody := fun _ _ => .error []
    relatedTopicsBody := fun _ _ => .error []
    trendingBody := fun _ => .error []
    industryFetch := fun _ => .error [] }

/-- `google_trends.main` (lines 207–249): command dispatch; every branch
prints exactly one JSON object and returns. -/
def googleMain (c : GClient) (argv : List Str) : PyResult :=
  if argv.length < 2 then .ok [errJ (str "No command specified")]
  else if argv.getD 1 [] = str "interest" then
    if argv.length < 3 then .ok [errJ (str "No keywords specified")]
    else
      .ok [catchJ (c.interestBody (splitSeq (str ",") (argv.getD 2 []))
        (if 3 < argv.length then argv.getD 3 [] else str "today 12-m"))]
  else if argv.getD 1 [] = str "related_queries" then
    if argv.length < 3 then .ok [errJ (str "No keyword specified")]
    else
      .ok [catchJ (c.relatedQueriesBody (argv.getD 2 [])
        (if 3 < argv.length then argv.getD 3 [] else str "today 12-m"))]
  else if argv.getD 1 [] = str "related_topics" then
    if argv.length < 3 then .ok [errJ (str "No keyword specified")]
    else
      .ok [catchJ (c.relatedTopicsBody (argv.getD 2 [])
        (if 3 < argv.length then argv.getD 3 [] else str "today 12-m"))]
  else if argv.getD 1 [] = str "trending" then
    .ok [catchJ (c.trendingBody (if 2 < argv.length then argv.getD 2 [] else str "US"))]
  else if argv.getD 1 [] = str "industry" then
    if argv.length < 3 then .ok [errJ (str "No industry keywords specified")]
    else
      .ok [giToJ (get_industry_interest c.industryFetch
        (splitSeq (str ",") (argv.getD 2 []))
        (if 3 < argv.length then argv.getD 3 [] else str "today 12-m")
        (if 4 < argv.length then argv.getD 4 [] else str "US"))]
  else .ok [errJ (str "Unknown command: " ++ argv.getD 1 [])]

/-- The whole `google_trends.py` process: the module-level
`pytrends = TrendReq(hl='en-US', tz=360)` of line 10 runs before `main`;
if its construction raises, the exception escapes unhandled. -/
def googleScript (init : Except Str GClient) (argv : List Str) : PyResult :=
  match init with
  | .error _ => .exn
  | .ok c => googleMain c argv

/-- The title carried by a level-1 heading node, `none` otherwise. -/
def h1of : Node → Option Str
  | .heading 1 s => some s
  | _ => none

/-- The title carried by a level-2 heading node, `none` otherwise. -/
def h2of : Node → Option Str
  | .heading 2 s => some s
  | _ => none

/-- Titles of the level-1 heading nodes of a document, in order. -/
def h1Titles (ns : List Node) : List Str := ns.filterMap h1of

/-- Titles of the level-2 heading nodes of a document, in order. -/
def h2Titles (ns : List Node) : List Str := ns.filterMap h2of

/-- Bullet items of a block, phrased as in the specification: split the
trimmed block text on `"\n- "`, discard blank fragments, strip a leading
`"- "` from any fragment still carrying one, and trim. -/
def bulletItemsSpec (para : Str) : List Str :=
  ((splitSeq (str "\n- ") (pstrip para)).filter (fun it => !(pstrip it).isEmpty)).map
    (fun it => pstrip (if (str "- ").isPrefixOf it then it.drop 2 else it))

/-! ## Library lemmas about the embedded string primitives -/

/-- Splitting a string whose head cannot start the separator peels off the
head character onto the first fragment. -/
theorem splitSeq_cons_skip (sep : Str) (c : Char) (rest : Str)
    (h : sep.isPrefixOf (c :: rest) = false) :
    splitSeq sep (c :: rest) =
      (c :: (splitSeq sep rest).headD []) :: (splitSeq sep rest).tail := by
  show splitF sep (rest.length + 1) (c :: rest) = _
  simp only [splitF, h, Bool.false_eq_true, if_false]
  rfl

/-- The separator `"\n### "` never matches at a character other than a
newline. -/
theorem sep3_no_match_at (c : Char) (x : Str) (h : c ≠ '\n') :
    sep3.isPrefixOf (c :: x) = false := by
  have e : sep3 = '\n' :: str "### " := by rfl
  rw [e]
  show ('\n' == c && (str "### ").isPrefixOf x) = false
  have : ('\n' == c) = false := by
    exact beq_eq_false_iff_ne.mpr (fun hc => h hc.symm)
  rw [this, Bool.false_and]


/-! ## Claim theorems -/

/-- C5: for the section `"## S\ntext\n### Sub\nmore"` inside a well-formed
document, the converter emits Section `S` with exactly one direct
Paragraph `"text"`, then Subsection `"Sub"` with exactly one Paragraph
`"more"`. -/
theorem c5_theorem :
    convert (str "# T\n## S\ntext\n### Sub\nmore") =
      [Node.heading 0 (str "T"), Node.heading 1 (str "S"), Node.para (str "text"),
       Node.heading 2 (str "Sub"), Node.para (str "more")] := by
  decide

/-- C1 counterexample: the block `"- one\n- two"` is a direct block of
Section `S`, its trimmed text starts with `"- "`, yet the converter emits
it as a single plain Paragraph, not as a BulletList with items
`["one", "two"]`. -/
theorem c1_counterexample :
    convert (str "# T\n## S\n- one\n- two") =
      [Node.heading 0 (str "T"), Node.heading 1 (str "S"),
       Node.para (str "- one\n- two")] ∧
    Node.bullet (str "one") ∉ convert (str "# T\n## S\n- one\n- two") := by
  constructor
  · decide
  · decide

/-- C2 counterexample: for the title fragment `"# A # B"`, the converter
removes every occurrence of `"# "` (via `str.replace`), producing the
title `"A B"`; the inner occurrence is not preserved, so the document
title is not `"A # B"` as the claim requires. -/
theorem c2_counterexample :
    convert (str "# A # B") = [Node.heading 0 (str "A B")] ∧
    convert (str "# A # B") ≠ [Node.heading 0 (str "A # B")] := by
  constructor
  · decide
  · decide

/-- C7 counterexample: in the subsection block `"- a\n- - \n- b"` the
middle fragment of the `"\n- "` split is `"- "`, which passes the
non-blank check before its leading `"- "` is removed, so the converter
emits an empty bullet-list node — the output document does contain an
empty content node. -/
theorem c7_counterexample :
    convert (str "# T\n## S\nintro\n### U\n- a\n- - \n- b") =
      [Node.heading 0 (str "T"), Node.heading 1 (str "S"), Node.para (str "intro"),
       Node.heading 2 (str "U"), Node.bullet (str "a"), Node.bullet [],
       Node.bullet (str "b")] ∧
    Node.bullet [] ∈ convert (str "# T\n## S\nintro\n### U\n- a\n- - \n- b") := by
  constructor
  · decide
  · decide

/-- C3 counterexample: running `yahoo_finance.py search AAPL xy` reaches
`int(sys.argv[3])` with the non-numeric string `"xy"`, whose `ValueError`
is caught nowhere: the process dies on an unhandled exception, whatever
the provider oracle would have answered. -/
theorem c3_counterexample :
    yahooMain oDefault [str "yahoo_finance.py", str "search", str "AAPL", str "xy"]
      = PyResult.exn := by
  rfl

/-- C8: with the input file absent the converter process exits non-zero
and writes nothing, whatever the library state and whatever would have
gone wrong in the try block (an unhandled import failure also exits 1
with nothing written); and on every run either nothing is written or the
full converted document is written with exit code 0. -/
theorem c8_theorem :
    (∀ (libs : Bool) (e : Option Str),
      convExit (convScript libs none e) ≠ 0 ∧
      convWritten (convScript libs none e) = none) ∧
    (∀ (libs : Bool) (inp : Option Str) (e : Option Str),
      convWritten (convScript libs inp e) = none ∨
        ∃ c, inp = some c ∧
          convScript libs inp e =
            .run ⟨0, some (convert c),
              [str "Successfully converted REPORT.md to REPORT.docx"]⟩) := by
  constructor
  · intro libs e
    cases libs <;> cases e <;> simp [convScript, convMain, convExit, convWritten]
  · intro libs inp e
    cases libs with
    | false => left; simp [convScript, convWritten]
    | true =>
      cases inp with
      | none => left; simp [convScript, convMain, convWritten]
      | some c =>
        cases e with
        | none => right; exact ⟨c, rfl, rfl⟩
        | some x => left; simp [convScript, convMain, convWritten]

/-- C4 counterexample: an exception whose text is empty
(`str(Exception()) == ""`) raised inside the data-fetch body of
`get_stock_data` is caught and converted, but the printed JSON object
carries `"message": ""` — an empty message string, contradicting the
claim's "non-empty message" conclusion. -/
theorem c4_counterexample :
    yahooMain { oDefault with stock := fun _ _ => .error [] }
        [str "yahoo_finance.py", str "stock", str "AAPL", str "1mo"]
      = PyResult.ok [J.jobj [(str "status", J.jstr (str "error")),
          (str "message", J.jstr [])]] ∧
    pyExit (yahooMain { oDefault with stock := fun _ _ => .error [] }
        [str "yahoo_finance.py", str "stock", str "AAPL", str "1mo"]) = some 0 :=
  ⟨rfl, rfl⟩

/-- C4 amended: whenever an exception with text `e` is raised inside a
data-fetch call, each adapter catches it at the call site and the process
prints exactly one JSON object `{"status": "error", "message": e}` and
exits 0; the message equals the exception's text verbatim, so it is
non-empty exactly when the exception's text is (an exception constructed
without text yields an empty message) — shown for
`yahoo_finance.py stock AAPL 1mo` and `google_trends.py interest ai`. -/
theorem c4_theorem : ∀ e : Str,
    yahooMain { oDefault with stock := fun _ _ => .error e }
        [str "yahoo_finance.py", str "stock", str "AAPL", str "1mo"]
      = PyResult.ok [errJ e] ∧
    pyExit (yahooMain { oDefault with stock := fun _ _ => .error e }
        [str "yahoo_finance.py", str "stock", str "AAPL", str "1mo"]) = some 0 ∧
    googleScript (.ok { gDefault with interestBody := fun _ _ => .error e })
        [str "google_trends.py", str "interest", str "ai"]
      = PyResult.ok [errJ e] ∧
    pyExit (googleScript (.ok { gDefault with interestBody := fun _ _ => .error e })
        [str "google_trends.py", str "interest", str "ai"]) = some 0 := by
  intro e
  exact ⟨rfl, rfl, rfl, rfl⟩

/-- C2 amended: the document title is obtained from the fragment before
the first `"\n## "` by stripping surrounding whitespace and then removing
every occurrence of the substring `"# "` (Python `replace`), not only a
single leading marker; on `"# A # B"` this gives `"A B"`. -/
theorem c2_theorem :
    (∀ t : Str,
      (convert t).headD (Node.para []) =
        Node.heading 0 (pyReplace (str "# ") [] (pstrip ((splitSeq sep2 t).headD [])))) ∧
    pyReplace (str "# ") [] (pstrip (str "# A # B")) = str "A B" := by
  constructor
  · intro t
    rfl
  · decide

/-- Peeling one matched character off a Boolean prefix test. -/
theorem isPrefixOf_cons_elim {a : Char} {as l : Str}
    (h : (a :: as).isPrefixOf l = true) :
    ∃ t, l = a :: t ∧ as.isPrefixOf t = true := by
  cases l with
  | nil => simp [List.isPrefixOf] at h
  | cons b bs =>
    have hh : (a == b && as.isPrefixOf bs) = true := h
    rw [Bool.and_eq_true] at hh
    exact ⟨bs, by rw [eq_of_beq hh.1], hh.2⟩

/-- C9: when a section body (after stripping) begins with `"### "`, the
whole first fragment of the `"\n### "` split — the leading subsection's
heading and content — is dropped: the section contributes only its own
level-1 heading and the subsections that follow a `"\n### "` delimiter. -/
theorem c9_theorem (frag : Str)
    (h : (str "### ").isPrefixOf (fragContent frag) = true) :
    sectionNodes frag =
      Node.heading 1 (fragTitle frag) ::
        ((splitSeq sep3 (fragContent frag)).tail).flatMap subsectionNodes := by
  obtain ⟨t1, h1, h1p⟩ := isPrefixOf_cons_elim (a := '#') h
  obtain ⟨t2, h2, h2p⟩ := isPrefixOf_cons_elim (a := '#') h1p
  obtain ⟨t3, h3, h3p⟩ := isPrefixOf_cons_elim (a := '#') h2p
  have hcontent : fragContent frag = '#' :: '#' :: '#' :: t3 := by
    rw [h1, h2, h3]
  have hcond : (str "###").isPrefixOf ((splitSeq sep3 (fragContent frag)).headD []) = true := by
    rw [hcontent]
    rw [splitSeq_cons_skip _ _ _ (sep3_no_match_at '#' _ (by decide))]
    rw [List.headD_cons]
    rw [splitSeq_cons_skip _ _ _ (sep3_no_match_at '#' _ (by decide))]
    rw [List.headD_cons]
    rw [splitSeq_cons_skip _ _ _ (sep3_no_match_at '#' _ (by decide))]
    show ('#' == '#' && (str "##").isPrefixOf ('#' :: '#' :: _)) = true
    simp [List.isPrefixOf]
  simp only [sectionNodes]
  rw [hcond]
  simp

/-- C9 witness: a section whose body starts with `"### U\nu1"`: the
leading subsection `U` and its content vanish; only the later subsection
`V` is emitted. -/
theorem c9_witness :
    sectionNodes (str "S\n### U\nu1\n### V\nv1") =
      [Node.heading 1 (str "S"), Node.heading 2 (str "V"), Node.para (str "v1")] := by
  rw [c9_theorem (str "S\n### U\nu1\n### V\nv1") (by decide)]
  decide

/-- The bullet loop of converter lines 82–86 equals the filter-then-map
presentation of `bulletItemsSpec`. -/
theorem flatMap_bulletOfItem (L : List Str) :
    L.flatMap bulletOfItem =
      ((L.filter (fun it => !(pstrip it).isEmpty)).map
        (fun it => pstrip (if (str "- ").isPrefixOf it then it.drop 2 else it))).map
        Node.bullet := by
  induction L with
  | nil => rfl
  | cons a L ih =>
    simp only [List.flatMap_cons, List.filter_cons]
    cases hae : (pstrip a).isEmpty with
    | true => simp [bulletOfItem, hae, ih]
    | false => simp [bulletOfItem, hae, ih]

/-- C1 amended: only blocks of a Subsection are classified: one whose
trimmed text starts with `"- "` is emitted as bullet items obtained by
splitting the trimmed text on `"\n- "`, discarding blank fragments,
stripping a leading `"- "` from any fragment still carrying one (not only
the first), and trimming; a direct block of a Section is never
bullet-classified — it is emitted as a single plain Paragraph (or
dropped when blank) even when its trimmed text starts with `"- "`. -/
theorem c1_theorem :
    (∀ p : Str, (str "- ").isPrefixOf (pstrip p) = true →
      subPara p = (bulletItemsSpec p).map Node.bullet) ∧
    (∀ p : Str, directPara p = [] ∨ directPara p = [Node.para (pstrip p)]) := by
  constructor
  · intro p hp
    obtain ⟨t, ht, _⟩ := isPrefixOf_cons_elim (a := '-') hp
    have hne : (pstrip p).isEmpty = false := by rw [ht]; rfl
    simp only [subPara, hne, hp, Bool.false_eq_true, if_false, if_true]
    exact flatMap_bulletOfItem _
  · intro p
    by_cases h : (pstrip p).isEmpty = true
    · left; simp [directPara, h]
    · right; simp [directPara, h]

/-- C1 witness: the subsection block `"- one\n- two\n- three"` yields
exactly the bullet items `["one", "two", "three"]`. -/
theorem c1_witness :
    subPara (str "- one\n- two\n- three") =
      [Node.bullet (str "one"), Node.bullet (str "two"), Node.bullet (str "three")] := by
  rw [c1_theorem.1 (str "- one\n- two\n- three") (by decide)]
  decide

/-- A list with `isEmpty = false` is not nil. -/
theorem ne_nil_of_isEmpty_eq_false {α : Type} {l : List α} (h : l.isEmpty = false) :
    l ≠ [] := by
  intro hl
  rw [hl] at h
  simp at h

/-- Shape of the nodes a direct section block can produce. -/
theorem mem_directPara {n : Node} {p : Str} (h : n ∈ directPara p) :
    n = Node.para (pstrip p) ∧ (pstrip p).isEmpty = false := by
  by_cases hc : (pstrip p).isEmpty = true
  · rw [directPara, if_pos hc] at h
    exact absurd h (List.not_mem_nil n)
  · rw [directPara, if_neg hc] at h
    simp only [List.mem_singleton] at h
    exact ⟨h, Bool.eq_false_iff.mpr hc⟩

/-- Shape of the nodes one bullet fragment can produce. -/
theorem mem_bulletOfItem {n : Node} {it : Str} (h : n ∈ bulletOfItem it) :
    ∃ s, n = Node.bullet s := by
  by_cases hc : (pstrip it).isEmpty = true
  · rw [bulletOfItem, if_pos hc] at h
    exact absurd h (List.not_mem_nil n)
  · rw [bulletOfItem, if_neg hc] at h
    simp only [List.mem_singleton] at h
    exact ⟨_, h⟩

/-- Shape of the nodes a subsection block can produce. -/
theorem mem_subPara {n : Node} {p : Str} (h : n ∈ subPara p) :
    (∃ s, n = Node.bullet s) ∨
      (n = Node.para (pstrip p) ∧ (pstrip p).isEmpty = false) := by
  by_cases h1 : (pstrip p).isEmpty = true
  · rw [subPara, if_pos h1] at h
    exact absurd h (List.not_mem_nil n)
  · rw [subPara, if_neg h1] at h
    by_cases h2 : (str "- ").isPrefixOf (pstrip p) = true
    · rw [if_pos h2] at h
      obtain ⟨it, _, hmem⟩ := List.mem_flatMap.mp h
      exact Or.inl (mem_bulletOfItem hmem)
    · rw [if_neg h2] at h
      simp only [List.mem_singleton] at h
      exact Or.inr ⟨h, Bool.eq_false_iff.mpr h1⟩

/-- Shape of the nodes a subsection can produce. -/
theorem mem_subsectionNodes {n : Node} {f : Str} (h : n ∈ subsectionNodes f) :
    n = Node.heading 2 (fragTitle f) ∨ (∃ s, n = Node.bullet s) ∨
      (∃ s, n = Node.para s ∧ s ≠ []) := by
  rcases List.mem_cons.mp h with h | h
  · exact Or.inl h
  · by_cases hc : (fragContent f).isEmpty = true
    · rw [if_pos hc] at h
      exact absurd h (List.not_mem_nil n)
    · rw [if_neg hc] at h
      obtain ⟨p, _, hmem⟩ := List.mem_flatMap.mp h
      rcases mem_subPara hmem with hb | ⟨hp, hne⟩
      · exact Or.inr (Or.inl hb)
      · exact Or.inr (Or.inr ⟨_, hp, ne_nil_of_isEmpty_eq_false hne⟩)

/-- Shape of the nodes a section can produce. -/
theorem mem_sectionNodes {n : Node} {f : Str} (h : n ∈ sectionNodes f) :
    n = Node.heading 1 (fragTitle f) ∨ (∃ g, n = Node.heading 2 g) ∨
      (∃ s, n = Node.bullet s) ∨ (∃ s, n = Node.para s ∧ s ≠ []) := by
  simp only [sectionNodes] at h
  rcases List.mem_cons.mp h with h | h
  · exact Or.inl h
  · rcases List.mem_append.mp h with h | h
    · by_cases hc :
        (str "###").isPrefixOf
          ((splitSeq sep3 (fragContent f)).headD []) = true
      · rw [if_pos hc] at h
        exact absurd h (List.not_mem_nil n)
      · rw [if_neg hc] at h
        obtain ⟨p, _, hmem⟩ := List.mem_flatMap.mp h
        obtain ⟨hp, hne⟩ := mem_directPara hmem
        exact Or.inr (Or.inr (Or.inr ⟨_, hp, ne_nil_of_isEmpty_eq_false hne⟩))
    · obtain ⟨g, _, hmem⟩ := List.mem_flatMap.mp h
      rcases mem_subsectionNodes hmem with h2 | hb | hp
      · exact Or.inr (Or.inl ⟨_, h2⟩)
      · exact Or.inr (Or.inr (Or.inl hb))
      · exact Or.inr (Or.inr (Or.inr hp))

/-- C7 amended: every Paragraph node the converter emits has non-empty
text — blank paragraphs are discarded, for direct section blocks and for
subsection blocks alike; however, an empty bullet-list item node can
still be emitted (see the counterexample): the "no empty content node"
guarantee holds for Paragraph nodes only. -/
theorem c7_theorem : ∀ (t s : Str), Node.para s ∈ convert t → s ≠ [] := by
  intro t s h
  simp only [convert] at h
  rcases List.mem_cons.mp h with h | h
  · exact absurd h (by simp)
  · obtain ⟨f, _, hmem⟩ := List.mem_flatMap.mp h
    rcases mem_sectionNodes hmem with h1 | ⟨g, h2⟩ | ⟨b, hb⟩ | ⟨p, hp, hne⟩
    · exact absurd h1 (by simp)
    · exact absurd h2 (by simp)
    · exact absurd hb (by simp)
    · rw [Node.para.injEq] at hp
      exact hp ▸ hne

/-- C7 witness: the theorem applied to the document `"# T\n## S\nhello"`,
whose only Paragraph node carries `"hello"`. -/
theorem c7_witness : str "hello" ≠ [] :=
  c7_theorem (str "# T\n## S\nhello") (str "hello") (by decide)

/-- `h1of` selects exactly the level-1 headings. -/
theorem h1of_h1 (s : Str) : h1of (Node.heading 1 s) = some s := rfl

/-- `h2of` selects exactly the level-2 headings. -/
theorem h2of_h2 (s : Str) : h2of (Node.heading 2 s) = some s := rfl

/-- A subsection contributes no level-1 heading. -/
theorem h1Titles_subsectionNodes (f : Str) : h1Titles (subsectionNodes f) = [] := by
  refine List.filterMap_eq_nil_iff.mpr (fun n hn => ?_)
  rcases mem_subsectionNodes hn with h | ⟨s, h⟩ | ⟨s, h, _⟩ <;> rw [h] <;> rfl

/-- A subsection contributes exactly one level-2 heading: its title. -/
theorem h2Titles_subsectionNodes (f : Str) : h2Titles (subsectionNodes f) = [fragTitle f] := by
  unfold h2Titles subsectionNodes
  rw [List.filterMap_cons_some (h2of_h2 (fragTitle f))]
  congr 1
  refine List.filterMap_eq_nil_iff.mpr (fun n hn => ?_)
  by_cases hc : (fragContent f).isEmpty = true
  · rw [if_pos hc] at hn
    exact absurd hn (List.not_mem_nil n)
  · rw [if_neg hc] at hn
    obtain ⟨p, _, hmem⟩ := List.mem_flatMap.mp hn
    rcases mem_subPara hmem with ⟨s, hb⟩ | ⟨hp, _⟩
    · rw [hb]; rfl
    · rw [hp]; rfl

/-- Direct section blocks contribute no level-1 heading. -/
theorem h1Titles_flatMap_direct (L : List Str) : h1Titles (L.flatMap directPara) = [] := by
  refine List.filterMap_eq_nil_iff.mpr (fun n hn => ?_)
  obtain ⟨p, _, hmem⟩ := List.mem_flatMap.mp hn
  rw [(mem_directPara hmem).1]
  rfl

/-- Direct section blocks contribute no level-2 heading. -/
theorem h2Titles_flatMap_direct (L : List Str) : h2Titles (L.flatMap directPara) = [] := by
  refine List.filterMap_eq_nil_iff.mpr (fun n hn => ?_)
  obtain ⟨p, _, hmem⟩ := List.mem_flatMap.mp hn
  rw [(mem_directPara hmem).1]
  rfl

/-- Consecutive subsections contribute their titles, in order. -/
theorem h2Titles_flatMap_subsections (L : List Str) :
    h2Titles (L.flatMap subsectionNodes) = L.map fragTitle := by
  induction L with
  | nil => rfl
  | cons a L ih =>
    rw [List.flatMap_cons, List.map_cons]
    unfold h2Titles at ih ⊢
    rw [List.filterMap_append, ih]
    have h := h2Titles_subsectionNodes a
    unfold h2Titles at h
    rw [h]
    rfl

/-- Consecutive subsections contribute no level-1 heading. -/
theorem h1Titles_flatMap_subsections (L : List Str) :
    h1Titles (L.flatMap subsectionNodes) = [] := by
  induction L with
  | nil => rfl
  | cons a L ih =>
    rw [List.flatMap_cons]
    unfold h1Titles at ih ⊢
    rw [List.filterMap_append, ih]
    have h := h1Titles_subsectionNodes a
    unfold h1Titles at h
    rw [h]
    rfl

/-- A section contributes exactly one level-1 heading: its title. -/
theorem h1Titles_sectionNodes (f : Str) : h1Titles (sectionNodes f) = [fragTitle f] := by
  unfold h1Titles sectionNodes
  rw [List.filterMap_cons_some (h1of_h1 (fragTitle f))]
  rw [List.filterMap_append]
  have hdir : ∀ L : List Node,
      (L = [] ∨ ∃ M : List Str, L = M.flatMap directPara) → List.filterMap h1of L = [] := by
    rintro L (rfl | ⟨M, rfl⟩)
    · rfl
    · exact h1Titles_flatMap_direct M
  rw [hdir _ (by split <;> [exact Or.inl rfl; exact Or.inr ⟨_, rfl⟩])]
  have h := h1Titles_flatMap_subsections ((splitSeq sep3 (fragContent f)).tail)
  unfold h1Titles at h
  rw [h]
  rfl

/-- A section's level-2 headings are its subsection titles, in order. -/
theorem h2Titles_sectionNodes (f : Str) :
    h2Titles (sectionNodes f) = ((splitSeq sep3 (fragContent f)).tail).map fragTitle := by
  unfold h2Titles sectionNodes
  rw [List.filterMap_cons_none rfl]
  rw [List.filterMap_append]
  have hdir : ∀ L : List Node,
      (L = [] ∨ ∃ M : List Str, L = M.flatMap directPara) → List.filterMap h2of L = [] := by
    rintro L (rfl | ⟨M, rfl⟩)
    · rfl
    · exact h2Titles_flatMap_direct M
  rw [hdir _ (by split <;> [exact Or.inl rfl; exact Or.inr ⟨_, rfl⟩])]
  have h := h2Titles_flatMap_subsections ((splitSeq sep3 (fragContent f)).tail)
  unfold h2Titles at h
  rw [h]
  rfl

/-- Consecutive sections contribute their titles, in order. -/
theorem h1Titles_flatMap_sections (L : List Str) :
    h1Titles (L.flatMap sectionNodes) = L.map fragTitle := by
  induction L with
  | nil => rfl
  | cons a L ih =>
    rw [List.flatMap_cons, List.map_cons]
    unfold h1Titles at ih ⊢
    rw [List.filterMap_append, ih]
    have h := h1Titles_sectionNodes a
    unfold h1Titles at h
    rw [h]
    rfl

/-- Consecutive sections contribute all their subsection titles, in order. -/
theorem h2Titles_flatMap_sections (L : List Str) :
    h2Titles (L.flatMap sectionNodes) =
      L.flatMap (fun f => ((splitSeq sep3 (fragContent f)).tail).map fragTitle) := by
  induction L with
  | nil => rfl
  | cons a L ih =>
    rw [List.flatMap_cons, List.flatMap_cons]
    unfold h2Titles at ih ⊢
    rw [List.filterMap_append, ih]
    have h := h2Titles_sectionNodes a
    unfold h2Titles at h
    rw [h]

/-- C6: section and subsection headings appear in the output in source
order: the level-1 heading titles of the document are exactly the section
titles of the `"\n## "` split, in order, and the level-2 heading titles
are the subsection titles of the per-section `"\n### "` splits, in order;
in particular `"# T\n## A\nx\n## B\ny"` yields exactly the two level-1
headings `A` and `B`, in that order. -/
theorem c6_theorem :
    (∀ t : Str,
      h1Titles (convert t) = ((splitSeq sep2 t).tail).map fragTitle ∧
      h2Titles (convert t) =
        ((splitSeq sep2 t).tail).flatMap
          (fun f => ((splitSeq sep3 (fragContent f)).tail).map fragTitle)) ∧
    h1Titles (convert (str "# T\n## A\nx\n## B\ny")) = [str "A", str "B"] := by
  constructor
  · intro t
    constructor
    · unfold convert h1Titles
      rw [List.filterMap_cons_none rfl]
      have h := h1Titles_flatMap_sections ((splitSeq sep2 t).tail)
      unfold h1Titles at h
      rw [h]
    · unfold convert h2Titles
      rw [List.filterMap_cons_none rfl]
      have h := h2Titles_flatMap_sections ((splitSeq sep2 t).tail)
      unfold h2Titles at h
      rw [h]
  · decide

/-- C3 amended: errors are handled at the top level of each script with
three exceptions visible in the code: in `yahoo_finance.py` a non-integer
limit argument to the `search` command raises an uncaught `ValueError`
(line 195); in `google_trends.py` a failure of the module-level `TrendReq`
construction (line 10) propagates unhandled; and in the converter a
missing library makes the module-level imports of lines 10–12 raise an
unhandled `ImportError` before `main` runs (the friendly check of lines
15–20 is dead code).  Under the corresponding provisos no run faults:
`yahoo_finance.main` never faults when the search limit parses,
`google_trends.main` never faults once the client is constructed, and
with the libraries importable the converter always terminates through
its own reporting path with exit code 0 or 1. -/
theorem c3_theorem :
    (∀ (o : YOracle) (argv : List Str),
      (argv.getD 1 [] = str "search" → 3 < argv.length →
        (pyInt (argv.getD 3 [])).isSome = true) →
      isFault (yahooMain o argv) = false) ∧
    (∀ (c : GClient) (argv : List Str), isFault (googleMain c argv) = false) ∧
    (∀ (inp : Option Str) (e : Option Str),
      isConvFault (convScript true inp e) = false ∧
      (convExit (convScript true inp e) = 0 ∨ convExit (convScript true inp e) = 1)) := by
  refine ⟨?_, ?_, ?_⟩
  · intro o argv h
    unfold yahooMain
    by_cases h1 : argv.length < 2
    · rw [if_pos h1]; rfl
    rw [if_neg h1]
    by_cases h2 : argv.getD 1 [] = str "stock"
    · rw [if_pos h2]
      by_cases h3 : argv.length < 3
      · rw [if_pos h3]; rfl
      · rw [if_neg h3]; rfl
    rw [if_neg h2]
    by_cases h4 : argv.getD 1 [] = str "market"
    · rw [if_pos h4]; rfl
    rw [if_neg h4]
    by_cases h5 : argv.getD 1 [] = str "sectors"
    · rw [if_pos h5]; rfl
    rw [if_neg h5]
    by_cases h6 : argv.getD 1 [] = str "search"
    · rw [if_pos h6]
      by_cases h7 : argv.length < 3
      · rw [if_pos h7]; rfl
      rw [if_neg h7]
      by_cases h8 : 3 < argv.length
      · rw [if_pos h8]
        obtain ⟨v, hv⟩ := Option.isSome_iff_exists.mp (h h6 h8)
        rw [hv]
        rfl
      · rw [if_neg h8]
        rfl
    · rw [if_neg h6]; rfl
  · intro c argv
    unfold googleMain
    by_cases h1 : argv.length < 2
    · rw [if_pos h1]; rfl
    rw [if_neg h1]
    by_cases h2 : argv.getD 1 [] = str "interest"
    · rw [if_pos h2]
      by_cases h3 : argv.length < 3
      · rw [if_pos h3]; rfl
      · rw [if_neg h3]; rfl
    rw [if_neg h2]
    by_cases h4 : argv.getD 1 [] = str "related_queries"
    · rw [if_pos h4]
      by_cases h5 : argv.length < 3
      · rw [if_pos h5]; rfl
      · rw [if_neg h5]; rfl
    rw [if_neg h4]
    by_cases h6 : argv.getD 1 [] = str "related_topics"
    · rw [if_pos h6]
      by_cases h7 : argv.length < 3
      · rw [if_pos h7]; rfl
      · rw [if_neg h7]; rfl
    rw [if_neg h6]
    by_cases h8 : argv.getD 1 [] = str "trending"
    · rw [if_pos h8]; rfl
    rw [if_neg h8]
    by_cases h9 : argv.getD 1 [] = str "industry"
    · rw [if_pos h9]
      by_cases h10 : argv.length < 3
      · rw [if_pos h10]; rfl
      · rw [if_neg h10]; rfl
    · rw [if_neg h9]; rfl
  · intro inp e
    refine ⟨rfl, ?_⟩
    cases inp <;> cases e <;> simp [convScript, convMain, convExit]

/-- C3 witness: concrete fault-free runs of each script. -/
theorem c3_witness :
    isFault (yahooMain oDefault [str "yahoo_finance.py", str "market"]) = false ∧
    isFault (googleMain gDefault [str "google_trends.py", str "trending"]) = false ∧
    (isConvFault (convScript true none none) = false ∧
      (convExit (convScript true none none) = 0 ∨ convExit (convScript true none none) = 1)) :=
  ⟨c3_theorem.1 oDefault [str "yahoo_finance.py", str "market"] (by decide),
   c3_theorem.2.1 gDefault [str "google_trends.py", str "trending"],
   c3_theorem.2.2 none none⟩

/-- The 5-chunks of a list concatenate back to the list. -/
theorem chunks5_flatten {α : Type} : ∀ l : List α, (chunks5 l).flatten = l
  | [] => rfl
  | [_] => rfl
  | [_, _] => rfl
  | [_, _, _] => rfl
  | [_, _, _, _] => rfl
  | a :: b :: c :: d :: e :: rest => by
    show ([a, b, c, d, e] :: chunks5 rest).flatten = _
    rw [List.flatten_cons, chunks5_flatten rest]
    rfl

/-- Every 5-chunk is non-empty and holds at most five elements. -/
theorem chunks5_mem {α : Type} :
    ∀ (l : List α) (c : List α), c ∈ chunks5 l → c ≠ [] ∧ c.length ≤ 5
  | [], c, hc => by simp [chunks5] at hc
  | [a1], c, hc => by
    simp only [chunks5, List.mem_singleton] at hc
    subst hc
    exact ⟨by simp, by simp⟩
  | [a1, a2], c, hc => by
    simp only [chunks5, List.mem_singleton] at hc
    subst hc
    exact ⟨by simp, by simp⟩
  | [a1, a2, a3], c, hc => by
    simp only [chunks5, List.mem_singleton] at hc
    subst hc
    exact ⟨by simp, by simp⟩
  | [a1, a2, a3, a4], c, hc => by
    simp only [chunks5, List.mem_singleton] at hc
    subst hc
    exact ⟨by simp, by simp⟩
  | a1 :: a2 :: a3 :: a4 :: a5 :: rest, c, hc => by
    rcases List.mem_cons.mp hc with rfl | h
    · exact ⟨by simp, by simp⟩
    · exact chunks5_mem rest c h

/-- A non-empty keyword list produces at least one chunk. -/
theorem chunks5_ne_nil {α : Type} : ∀ l : List α, l ≠ [] → chunks5 l ≠ []
  | [], h => absurd rfl h
  | [_], _ => by simp [chunks5]
  | [_, _], _ => by simp [chunks5]
  | [_, _, _], _ => by simp [chunks5]
  | [_, _, _, _], _ => by simp [chunks5]
  | _ :: _ :: _ :: _ :: _ :: _, _ => by simp [chunks5]

/-- When no chunk raises, the chunk loop collects the per-chunk melted
records, concatenated in chunk order. -/
theorem giiGo_ok (g : List Str → List TrendRow) : ∀ L : List (List Str),
    giiGo (fun c => Except.ok (g c)) L =
      Except.ok (L.flatMap (fun c => if (g c).isEmpty then [] else meltRecords c (g c)))
  | [] => rfl
  | c :: cs => by
    unfold giiGo
    rw [giiGo_ok g cs, List.flatMap_cons]

/-- C10: for a non-empty keyword list, `get_industry_interest` partitions
the keywords into consecutive chunks of at most five (at least one chunk,
each non-empty, concatenating back to the keyword list), issues one
provider request per chunk, and — when no request raises — the data of a
success result is the concatenation, in chunk order, of the per-chunk
melted records (date, keyword, interest), a failure being reported
instead only when every chunk came back empty. -/
theorem c10_theorem (kws : List Str) (g : List Str → List TrendRow)
    (period region : Str) (hk : kws ≠ []) :
    (chunks5 kws).flatten = kws ∧
    chunks5 kws ≠ [] ∧
    (∀ c ∈ chunks5 kws, c ≠ [] ∧ c.length ≤ 5) ∧
    get_industry_interest (fun c => Except.ok (g c)) kws period region =
      (if ((chunks5 kws).flatMap
            (fun c => if (g c).isEmpty then [] else meltRecords c (g c))).isEmpty
       then GIResult.failure (str "No data returned for the query")
       else GIResult.success region period
         ((chunks5 kws).flatMap
           (fun c => if (g c).isEmpty then [] else meltRecords c (g c)))) := by
  refine ⟨chunks5_flatten kws, chunks5_ne_nil kws hk,
    fun c hc => chunks5_mem kws c hc, ?_⟩
  unfold get_industry_interest
  rw [giiGo_ok g (chunks5 kws)]

/-- C10 witness: six keywords fall into the chunks `[a,b,c,d,e]` and
`[f]`, which concatenate back to the keyword list. -/
theorem c10_witness :
    (chunks5 [str "a", str "b", str "c", str "d", str "e", str "f"]).flatten =
      [str "a", str "b", str "c", str "d", str "e", str "f"] :=
  (c10_theorem [str "a", str "b", str "c", str "d", str "e", str "f"]
    (fun _ => [⟨str "2024-01-01", fun _ => 7⟩]) (str "today 12-m") (str "US")
    (by decide)).1
